import Mathlib

/-!
Verification of the metadata reference-resolution core
(src/Datadog.Trace.ClrProfiler.Native/metadata_builder.cpp).

The external metadata store (the COM interfaces IMetaDataImport2,
IMetaDataEmit, IMetaDataAssemblyImport, IMetaDataAssemblyEmit together
with the helper FindAssemblyRef from clr_helpers) is out of scope of the
source file and is modelled as an abstract, unchanging record of pure
functions; every call the resolver makes to it is recorded in an
explicit operation trace so that call-count and call-order properties
can be stated.  HRESULT values are natural numbers below 2^32; a value
is a failure exactly when its high bit is set, as in the FAILED macro.
-/

set_option autoImplicit false

/-- HRESULT success value. -/
def S_OK : Nat := 0

/-- Generic failure HRESULT. -/
def E_FAIL : Nat := 0x80004005

/-- The distinguished record-not-found HRESULT tested by the source
(0x80131130, commented there as record not found on lookup). -/
def CLDB_E_RECORD_NOTFOUND : Nat := 0x80131130

/-- The FAILED macro: an HRESULT is a failure when its sign bit is set. -/
def FAILED (hr : Nat) : Bool := decide (0x80000000 ≤ hr)

/-- Nil assembly-reference token (mdAssemblyRefNil). -/
def mdAssemblyRefNil : Nat := 0x23000000

/-- Nil type-reference token (mdTypeRefNil). -/
def mdTypeRefNil : Nat := 0x01000000

/-- Nil member-reference token (mdMemberRefNil). -/
def mdMemberRefNil : Nat := 0x0A000000

/-- Assembly version record, the four unsigned fields copied into
ASSEMBLYMETADATA by EmitAssemblyRef. -/
structure AssemblyVersion where
  major : Nat
  minor : Nat
  build : Nat
  revision : Nat
deriving DecidableEq, Repr

/-- Modelled from the spec: a fixed-size (8 byte) public key blob whose
all-zero value is the sentinel compared against trace PublicKey() in
EmitAssemblyRef (the PublicKey type lives in clr_helpers.h, outside the
source file). -/
structure PublicKey where
  data : List Nat
deriving DecidableEq, Repr

/-- The default-constructed PublicKey: the all-zero sentinel meaning
no strong-name key. -/
def PublicKey.zero : PublicKey := ⟨List.replicate 8 0⟩

/-- Modelled from the spec: an assembly descriptor with name, version,
locale (sentinel value neutral) and public key (declared in
clr_helpers.h, outside the source file). -/
structure AssemblyReference where
  name : String
  version : AssemblyVersion
  locale : String
  public_key : PublicKey
deriving DecidableEq, Repr

/-- Modelled from the spec: a type descriptor, an assembly plus a type
name (declared in clr_helpers.h, outside the source file). -/
structure TypeReference where
  assembly : AssemblyReference
  type_name : String
deriving DecidableEq, Repr

/-- Opaque pre-serialized signature blob, treated as an atomic byte
sequence by the core. -/
structure MethodSignature where
  data : List Nat
deriving DecidableEq, Repr

/-- Modelled from the spec: a method descriptor, a type reference plus a
method name and signature (declared in clr_helpers.h, outside the
source file). -/
structure MethodReference where
  type_reference : TypeReference
  method_name : String
  method_signature : MethodSignature
deriving DecidableEq, Repr

/-- A pair of method references (entry and exit hooks) resolved as a
unit by StoreMethodAdvice. -/
structure MethodAdvice where
  on_enter : MethodReference
  on_exit : MethodReference
deriving DecidableEq, Repr

/-- Accessor used by StoreMethodAdvice. -/
def MethodAdvice.OnMethodEnterReference (a : MethodAdvice) : MethodReference :=
  a.on_enter

/-- Accessor used by StoreMethodAdvice. -/
def MethodAdvice.OnMethodExitReference (a : MethodAdvice) : MethodReference :=
  a.on_exit

/-- Key type of the type-reference cache. -/
abbrev TypeKey := String × String

/-- Modelled from the spec: the type cache key is derived
deterministically from the assembly name and the type name
(get_type_cache_key is declared outside the source file). -/
def TypeReference.get_type_cache_key (t : TypeReference) : TypeKey :=
  (t.assembly.name, t.type_name)

/-- Key type of the member-reference cache. -/
abbrev MethodKey := TypeKey × String × List Nat

/-- Modelled from the spec: the method cache key is derived from the
tuple (type cache key, method name, signature bytes)
(get_method_cache_key is declared outside the source file). -/
def MethodReference.get_method_cache_key (m : MethodReference) : MethodKey :=
  (m.type_reference.get_type_cache_key, m.method_name, m.method_signature.data)

/-- The ASSEMBLYMETADATA record built by EmitAssemblyRef; szLocale is
none when the source sets the pointer to nullptr. -/
structure AssemblyMetadataRec where
  usMajorVersion : Nat
  usMinorVersion : Nat
  usBuildNumber : Nat
  usRevisionNumber : Nat
  szLocale : Option String
  cbLocale : Nat
deriving DecidableEq, Repr

/-- Modelled from the spec: the per-module ModuleMetadata context with
its three caches (module_metadata.h is outside the source file).  The
caches are association lists from cache key to store token. -/
structure ModuleMetadata where
  assemblyName : String
  type_refs : List (String × Nat)
  type_ref_cache : List (TypeKey × Nat)
  member_ref_cache : List (MethodKey × Nat)
deriving DecidableEq, Repr

/-- First-match association-list lookup, the lookup discipline of the
ModuleMetadata caches. -/
def alookup {κ : Type} [DecidableEq κ] : List (κ × Nat) → κ → Option Nat
  | [], _ => none
  | (k, v) :: rest, key => if k = key then some v else alookup rest key

/-- Modelled from the spec: cache lookup for a type-reference token. -/
def ModuleMetadata.TryGetWrapperParentTypeRef (md : ModuleMetadata)
    (key : TypeKey) : Option Nat :=
  alookup md.type_ref_cache key

/-- Modelled from the spec: cache insertion of a type-reference token. -/
def ModuleMetadata.SetWrapperParentTypeRef (md : ModuleMetadata)
    (key : TypeKey) (tok : Nat) : ModuleMetadata :=
  { md with type_ref_cache := (key, tok) :: md.type_ref_cache }

/-- Modelled from the spec: cache lookup for a member-reference token. -/
def ModuleMetadata.TryGetWrapperMemberRef (md : ModuleMetadata)
    (key : MethodKey) : Option Nat :=
  alookup md.member_ref_cache key

/-- Modelled from the spec: cache insertion of a member-reference token. -/
def ModuleMetadata.SetWrapperMemberRef (md : ModuleMetadata)
    (key : MethodKey) (tok : Nat) : ModuleMetadata :=
  { md with member_ref_cache := (key, tok) :: md.member_ref_cache }

/-- One observable call to the external metadata store. -/
inductive StoreOp where
  | findAssemblyRef (name : String)
  | defineAssemblyRef (name : String) (public_key : PublicKey)
      (public_key_size : Nat) (assembly_metadata : AssemblyMetadataRec)
  | defineTypeRefByName (scope : Nat) (type_name : String)
  | findTypeRef (scope : Nat) (type_name : String)
  | findMemberRef (scope : Nat) (method_name : String) (signature : List Nat)
  | defineMemberRef (scope : Nat) (method_name : String) (signature : List Nat)
deriving DecidableEq, Repr

/-- The abstract external metadata store: one pure function per
primitive the source calls.  A pure record models the otherwise
unchanged store of the claims: repeated calls with equal arguments get
equal answers.  find and define primitives return an HRESULT paired
with the token written through their out parameter. -/
structure Store where
  findAssemblyRef : String → Nat
  defineAssemblyRef : String → PublicKey → Nat → AssemblyMetadataRec → Nat
  defineTypeRefByName : Nat → String → Nat × Nat
  findTypeRef : Nat → String → Nat × Nat
  findMemberRef : Nat → String → List Nat → Nat × Nat
  defineMemberRef : Nat → String → List Nat → Nat × Nat

/-- Result of FindTypeReference: the returned HRESULT, the final value
of the by-reference out parameter type_ref_out, the ModuleMetadata
after the call, and the trace of store calls performed. -/
structure FTRResult where
  hr : Nat
  out : Nat
  md : ModuleMetadata
  ops : List StoreOp
deriving Repr

/-- Result of StoreMethodReference / StoreMethodAdvice. -/
structure SMRResult where
  hr : Nat
  md : ModuleMetadata
  ops : List StoreOp
deriving Repr

/-- Result of EmitAssemblyRef (it never touches ModuleMetadata: its
signature carries no caches in and none out). -/
structure EARResult where
  hr : Nat
  ops : List StoreOp
deriving Repr

/-- The ASSEMBLYMETADATA record as EmitAssemblyRef fills it: the four
version fields, and the locale fields under the neutral sentinel rule
(nullptr locale and zero length for neutral, otherwise the string and
its length). -/
def buildAssemblyMetadata (assembly_ref : AssemblyReference) :
    AssemblyMetadataRec :=
  { usMajorVersion := assembly_ref.version.major
    usMinorVersion := assembly_ref.version.minor
    usBuildNumber := assembly_ref.version.build
    usRevisionNumber := assembly_ref.version.revision
    szLocale := if assembly_ref.locale = "neutral" then none
                else some assembly_ref.locale
    cbLocale := if assembly_ref.locale = "neutral" then 0
                else assembly_ref.locale.length }

/-- MetadataBuilder::EmitAssemblyRef: build the ASSEMBLYMETADATA
record, select the public-key size (0 for the all-zero sentinel,
otherwise the fixed 8), issue one unconditional DefineAssemblyRef to
the store, return the store failure as is or S_OK. -/
def EmitAssemblyRef (st : Store) (assembly_ref : AssemblyReference) :
    EARResult :=
  let assembly_metadata := buildAssemblyMetadata assembly_ref
  let public_key_size : Nat :=
    if assembly_ref.public_key = PublicKey.zero then 0 else 8
  let hr := st.defineAssemblyRef assembly_ref.name assembly_ref.public_key
      public_key_size assembly_metadata
  let ops := [StoreOp.defineAssemblyRef assembly_ref.name
      assembly_ref.public_key public_key_size assembly_metadata]
  if FAILED hr then ⟨hr, ops⟩ else ⟨S_OK, ops⟩

/-- MetadataBuilder::FindTypeReference.  On cache hit, return the
cached token with no store call.  On miss: if the descriptor names the
module assembly itself, define a type reference scoped to the module
token; otherwise look up the owning assembly reference (E_FAIL when
absent), search for an existing type reference, and define one only on
the distinguished record-not-found outcome.  The out parameter is
written only on the success paths. -/
def FindTypeReference (st : Store) (module_ : Nat) (md : ModuleMetadata)
    (type_reference : TypeReference) (type_ref_out : Nat) : FTRResult :=
  let cache_key := type_reference.get_type_cache_key
  match md.TryGetWrapperParentTypeRef cache_key with
  | some type_ref => ⟨S_OK, type_ref, md, []⟩
  | none =>
    let wrapper_type_name := type_reference.type_name
    if md.assemblyName = type_reference.assembly.name then
      let r := st.defineTypeRefByName module_ wrapper_type_name
      let ops := [StoreOp.defineTypeRefByName module_ wrapper_type_name]
      if FAILED r.1 then ⟨r.1, type_ref_out, md, ops⟩
      else ⟨S_OK, r.2, md.SetWrapperParentTypeRef cache_key r.2, ops⟩
    else
      let assembly_ref := st.findAssemblyRef type_reference.assembly.name
      let ops0 := [StoreOp.findAssemblyRef type_reference.assembly.name]
      if assembly_ref = mdAssemblyRefNil then
        ⟨E_FAIL, type_ref_out, md, ops0⟩
      else
        let rf := st.findTypeRef assembly_ref wrapper_type_name
        let ops1 := ops0 ++ [StoreOp.findTypeRef assembly_ref wrapper_type_name]
        if rf.1 = CLDB_E_RECORD_NOTFOUND then
          let rd := st.defineTypeRefByName assembly_ref wrapper_type_name
          let ops2 := ops1 ++
            [StoreOp.defineTypeRefByName assembly_ref wrapper_type_name]
          if FAILED rd.1 then ⟨rd.1, type_ref_out, md, ops2⟩
          else ⟨S_OK, rd.2, md.SetWrapperParentTypeRef cache_key rd.2, ops2⟩
        else if FAILED rf.1 then ⟨rf.1, type_ref_out, md, ops1⟩
        else ⟨S_OK, rf.2, md.SetWrapperParentTypeRef cache_key rf.2, ops1⟩

/-- MetadataBuilder::StoreMethodReference.  On cache hit, success with
no store call.  On miss: emit the owning assembly reference, resolve
the owning type reference, search for an existing member reference and
define one only on the record-not-found outcome; cache the token on
success. -/
def StoreMethodReference (st : Store) (module_ : Nat) (md : ModuleMetadata)
    (method_reference : MethodReference) : SMRResult :=
  let cache_key := method_reference.get_method_cache_key
  match md.TryGetWrapperMemberRef cache_key with
  | some _ => ⟨S_OK, md, []⟩
  | none =>
    let ra := EmitAssemblyRef st method_reference.type_reference.assembly
    if FAILED ra.hr then ⟨ra.hr, md, ra.ops⟩
    else
      let rt := FindTypeReference st module_ md
          method_reference.type_reference mdTypeRefNil
      if FAILED rt.hr then ⟨rt.hr, rt.md, ra.ops ++ rt.ops⟩
      else
        let type_ref := rt.out
        let wrapper_method_name := method_reference.method_name
        let signature := method_reference.method_signature.data
        let rm := st.findMemberRef type_ref wrapper_method_name signature
        let ops1 := ra.ops ++ rt.ops ++
          [StoreOp.findMemberRef type_ref wrapper_method_name signature]
        if rm.1 = CLDB_E_RECORD_NOTFOUND then
          let rd := st.defineMemberRef type_ref wrapper_method_name signature
          let ops2 := ops1 ++
            [StoreOp.defineMemberRef type_ref wrapper_method_name signature]
          if FAILED rd.1 then ⟨rd.1, rt.md, ops2⟩
          else ⟨S_OK, rt.md.SetWrapperMemberRef cache_key rd.2, ops2⟩
        else if FAILED rm.1 then ⟨rm.1, rt.md, ops1⟩
        else ⟨S_OK, rt.md.SetWrapperMemberRef cache_key rm.2, ops1⟩

/-- MetadataBuilder::StoreMethodAdvice: resolve the on-enter reference,
short-circuit on its failure, otherwise resolve the on-exit reference. -/
def StoreMethodAdvice (st : Store) (module_ : Nat) (md : ModuleMetadata)
    (method_advice : MethodAdvice) : SMRResult :=
  let r1 := StoreMethodReference st module_ md
      method_advice.OnMethodEnterReference
  if FAILED r1.hr then ⟨r1.hr, r1.md, r1.ops⟩
  else
    let r2 := StoreMethodReference st module_ r1.md
        method_advice.OnMethodExitReference
    if FAILED r2.hr then ⟨r2.hr, r2.md, r1.ops ++ r2.ops⟩
    else ⟨S_OK, r2.md, r1.ops ++ r2.ops⟩

/-- The constructor loop over candidate foundational assemblies:
systemasm starts at mdAssemblyRefNil, each candidate is looked up in
order, the first non-nil answer wins and stops the loop. -/
def findFirstAssemblyRef (st : Store) : List String → Nat × List StoreOp
  | [] => (mdAssemblyRefNil, [])
  | name :: rest =>
    let tok := st.findAssemblyRef name
    if tok ≠ mdAssemblyRefNil then (tok, [StoreOp.findAssemblyRef name])
    else
      let r := findFirstAssemblyRef st rest
      (r.1, StoreOp.findAssemblyRef name :: r.2)

/-- The constructor loop over foundational type names: each name gets a
DefineTypeRefByName against systemasm, and the token is stored in
type_refs only when the call did not fail; a failure neither aborts the
loop nor touches type_refs for that name. -/
def prePopulateTypeRefs (st : Store) (systemasm : Nat) :
    ModuleMetadata → List String → ModuleMetadata × List StoreOp
  | md, [] => (md, [])
  | md, type_name :: rest =>
    let r := st.defineTypeRefByName systemasm type_name
    let md1 := if FAILED r.1 then md
               else { md with type_refs := (type_name, r.2) :: md.type_refs }
    let rr := prePopulateTypeRefs st systemasm md1 rest
    (rr.1, StoreOp.defineTypeRefByName systemasm type_name :: rr.2)

/-- The candidate foundational assemblies tried by the constructor, in
preference order. -/
def possible_assembly_names : List String :=
  ["System.Runtime", "mscorlib", "netstandard"]

/-- The foundational type names pre-populated by the constructor. -/
def foundational_type_names : List String :=
  ["System.Object", "System.Exception"]

/-- MetadataBuilder::MetadataBuilder, the body after member
initialization: find the first available foundational assembly
reference, then attempt the foundational type defines.  Returns the
updated ModuleMetadata, the resolved systemasm token, and the store
trace.  Construction has no failure channel. -/
def MetadataBuilderInit (st : Store) (md : ModuleMetadata) :
    ModuleMetadata × Nat × List StoreOp :=
  let ra := findFirstAssemblyRef st possible_assembly_names
  let systemasm := ra.1
  let rp := prePopulateTypeRefs st systemasm md foundational_type_names
  (rp.1, systemasm, ra.2 ++ rp.2)

/-! ### Concrete test doubles used by witnesses and counterexamples -/

/-- A module context: module assembly MyApp, all caches empty. -/
def mdMyApp : ModuleMetadata := ⟨"MyApp", [], [], []⟩

/-- Descriptor of the module assembly itself. -/
def arMyApp : AssemblyReference := ⟨"MyApp", ⟨1, 0, 0, 0⟩, "neutral", PublicKey.zero⟩

/-- A type living in the module assembly (same-module path). -/
def trHelper : TypeReference := ⟨arMyApp, "MyApp.Helper"⟩

/-- A method on that type. -/
def mrLog : MethodReference := ⟨trHelper, "Log", ⟨[32, 1]⟩⟩

/-- A cross-assembly descriptor: a different assembly with a locale and
a non-zero public key. -/
def arOther : AssemblyReference :=
  ⟨"OtherAsm", ⟨4, 0, 1, 2⟩, "fr-FR", ⟨[1, 2, 3, 4, 5, 6, 7, 8]⟩⟩

/-- A type living in the other assembly (cross-assembly path). -/
def trOther : TypeReference := ⟨arOther, "Other.Widget"⟩

/-- A method on the cross-assembly type. -/
def mrOther : MethodReference := ⟨trOther, "Run", ⟨[32, 0]⟩⟩

/-- A store double where every lookup and definition succeeds; type and
member searches report the distinguished record-not-found outcome so
the define fallback is exercised. -/
def stOk : Store :=
  ⟨fun _ => 0x23000001,
   fun _ _ _ _ => S_OK,
   fun _ _ => (S_OK, 0x01000007),
   fun _ _ => (CLDB_E_RECORD_NOTFOUND, 0),
   fun _ _ _ => (CLDB_E_RECORD_NOTFOUND, 0),
   fun _ _ _ => (S_OK, 0x0A000009)⟩

/-- A store double where type and member searches find existing tokens
immediately. -/
def stFound : Store :=
  ⟨fun _ => 0x23000001,
   fun _ _ _ _ => S_OK,
   fun _ _ => (S_OK, 0x01000007),
   fun _ _ => (S_OK, 0x01000042),
   fun _ _ _ => (S_OK, 0x0A000042),
   fun _ _ _ => (S_OK, 0x0A000009)⟩

/-- A store double with no assembly references at all. -/
def stNoAsm : Store :=
  ⟨fun _ => mdAssemblyRefNil,
   fun _ _ _ _ => S_OK,
   fun _ _ => (S_OK, 0x01000007),
   fun _ _ => (CLDB_E_RECORD_NOTFOUND, 0),
   fun _ _ _ => (CLDB_E_RECORD_NOTFOUND, 0),
   fun _ _ _ => (S_OK, 0x0A000009)⟩

/-- A store double whose member search fails with a generic error while
everything before it succeeds. -/
def stMemberErr : Store :=
  ⟨fun _ => 0x23000001,
   fun _ _ _ _ => S_OK,
   fun _ _ => (S_OK, 0x01000007),
   fun _ _ => (CLDB_E_RECORD_NOTFOUND, 0),
   fun _ _ _ => (E_FAIL, 0),
   fun _ _ _ => (S_OK, 0x0A000009)⟩

/-- A store double whose assembly-reference definition fails. -/
def stAsmEmitErr : Store :=
  ⟨fun _ => 0x23000001,
   fun _ _ _ _ => E_FAIL,
   fun _ _ => (S_OK, 0x01000007),
   fun _ _ => (CLDB_E_RECORD_NOTFOUND, 0),
   fun _ _ _ => (CLDB_E_RECORD_NOTFOUND, 0),
   fun _ _ _ => (S_OK, 0x0A000009)⟩

/-- An advice bundle: enter on the module-local method, exit on the
cross-assembly method. -/
def advMix : MethodAdvice := ⟨mrLog, mrOther⟩

/-! ### Helper lemmas -/

theorem FAILED_S_OK : FAILED S_OK = false := by decide

theorem FAILED_E_FAIL : FAILED E_FAIL = true := by decide

theorem FAILED_NOTFOUND : FAILED CLDB_E_RECORD_NOTFOUND = true := by decide

theorem E_FAIL_ne_S_OK : E_FAIL ≠ S_OK := by decide

theorem FAILED_ne_sok {x : Nat} (hx : FAILED x = true) : x ≠ S_OK := by
  intro h
  rw [h] at hx
  simp [FAILED, S_OK] at hx

theorem alookup_cons_self {κ : Type} [DecidableEq κ] (c : List (κ × Nat))
    (k : κ) (v : Nat) : alookup ((k, v) :: c) k = some v := by
  simp [alookup]

theorem tryget_set_self (md : ModuleMetadata) (key : TypeKey) (tok : Nat) :
    (md.SetWrapperParentTypeRef key tok).TryGetWrapperParentTypeRef key =
      some tok := by
  simp [ModuleMetadata.SetWrapperParentTypeRef,
    ModuleMetadata.TryGetWrapperParentTypeRef, alookup]

theorem tryget_member_set_self (md : ModuleMetadata) (key : MethodKey)
    (tok : Nat) :
    (md.SetWrapperMemberRef key tok).TryGetWrapperMemberRef key = some tok := by
  simp [ModuleMetadata.SetWrapperMemberRef,
    ModuleMetadata.TryGetWrapperMemberRef, alookup]

/-- Exhaustive case analysis of FindTypeReference: the five source paths
(cache hit, same-module define, missing assembly reference, cross
search with not-found fallback, cross search with an answer), with the
full result of each. -/
theorem ftr_cases (st : Store) (module_ : Nat) (md : ModuleMetadata)
    (t : TypeReference) (out0 : Nat) :
    (∃ tok, md.TryGetWrapperParentTypeRef t.get_type_cache_key = some tok ∧
      FindTypeReference st module_ md t out0 = ⟨S_OK, tok, md, []⟩) ∨
    (md.TryGetWrapperParentTypeRef t.get_type_cache_key = none ∧
      md.assemblyName = t.assembly.name ∧
      ((FAILED (st.defineTypeRefByName module_ t.type_name).1 = true ∧
        FindTypeReference st module_ md t out0 =
          ⟨(st.defineTypeRefByName module_ t.type_name).1, out0, md,
            [StoreOp.defineTypeRefByName module_ t.type_name]⟩) ∨
       (FAILED (st.defineTypeRefByName module_ t.type_name).1 = false ∧
        FindTypeReference st module_ md t out0 =
          ⟨S_OK, (st.defineTypeRefByName module_ t.type_name).2,
            md.SetWrapperParentTypeRef t.get_type_cache_key
              (st.defineTypeRefByName module_ t.type_name).2,
            [StoreOp.defineTypeRefByName module_ t.type_name]⟩))) ∨
    (md.TryGetWrapperParentTypeRef t.get_type_cache_key = none ∧
      ¬ md.assemblyName = t.assembly.name ∧
      st.findAssemblyRef t.assembly.name = mdAssemblyRefNil ∧
      FindTypeReference st module_ md t out0 =
        ⟨E_FAIL, out0, md, [StoreOp.findAssemblyRef t.assembly.name]⟩) ∨
    (md.TryGetWrapperParentTypeRef t.get_type_cache_key = none ∧
      ¬ md.assemblyName = t.assembly.name ∧
      ¬ st.findAssemblyRef t.assembly.name = mdAssemblyRefNil ∧
      (st.findTypeRef (st.findAssemblyRef t.assembly.name) t.type_name).1 =
        CLDB_E_RECORD_NOTFOUND ∧
      ((FAILED (st.defineTypeRefByName (st.findAssemblyRef t.assembly.name)
          t.type_name).1 = true ∧
        FindTypeReference st module_ md t out0 =
          ⟨(st.defineTypeRefByName (st.findAssemblyRef t.assembly.name)
              t.type_name).1, out0, md,
            [StoreOp.findAssemblyRef t.assembly.name,
             StoreOp.findTypeRef (st.findAssemblyRef t.assembly.name)
               t.type_name,
             StoreOp.defineTypeRefByName (st.findAssemblyRef t.assembly.name)
               t.type_name]⟩) ∨
       (FAILED (st.defineTypeRefByName (st.findAssemblyRef t.assembly.name)
          t.type_name).1 = false ∧
        FindTypeReference st module_ md t out0 =
          ⟨S_OK, (st.defineTypeRefByName (st.findAssemblyRef t.assembly.name)
              t.type_name).2,
            md.SetWrapperParentTypeRef t.get_type_cache_key
              (st.defineTypeRefByName (st.findAssemblyRef t.assembly.name)
                t.type_name).2,
            [StoreOp.findAssemblyRef t.assembly.name,
             StoreOp.findTypeRef (st.findAssemblyRef t.assembly.name)
               t.type_name,
             StoreOp.defineTypeRefByName (st.findAssemblyRef t.assembly.name)
               t.type_name]⟩))) ∨
    (md.TryGetWrapperParentTypeRef t.get_type_cache_key = none ∧
      ¬ md.assemblyName = t.assembly.name ∧
      ¬ st.findAssemblyRef t.assembly.name = mdAssemblyRefNil ∧
      ¬ (st.findTypeRef (st.findAssemblyRef t.assembly.name) t.type_name).1 =
        CLDB_E_RECORD_NOTFOUND ∧
      ((FAILED (st.findTypeRef (st.findAssemblyRef t.assembly.name)
          t.type_name).1 = true ∧
        FindTypeReference st module_ md t out0 =
          ⟨(st.findTypeRef (st.findAssemblyRef t.assembly.name) t.type_name).1,
            out0, md,
            [StoreOp.findAssemblyRef t.assembly.name,
             StoreOp.findTypeRef (st.findAssemblyRef t.assembly.name)
               t.type_name]⟩) ∨
       (FAILED (st.findTypeRef (st.findAssemblyRef t.assembly.name)
          t.type_name).1 = false ∧
        FindTypeReference st module_ md t out0 =
          ⟨S_OK, (st.findTypeRef (st.findAssemblyRef t.assembly.name)
              t.type_name).2,
            md.SetWrapperParentTypeRef t.get_type_cache_key
              (st.findTypeRef (st.findAssemblyRef t.assembly.name)
                t.type_name).2,
            [StoreOp.findAssemblyRef t.assembly.name,
             StoreOp.findTypeRef (st.findAssemblyRef t.assembly.name)
               t.type_name]⟩))) := by
  cases hc : md.TryGetWrapperParentTypeRef t.get_type_cache_key with
  | some tok => exact Or.inl ⟨tok, rfl, by simp [FindTypeReference, hc]⟩
  | none =>
    by_cases h1 : md.assemblyName = t.assembly.name
    · cases hF : FAILED (st.defineTypeRefByName module_ t.type_name).1 with
      | true =>
        exact Or.inr (Or.inl ⟨rfl, h1,
          Or.inl ⟨rfl, by simp [FindTypeReference, hc, h1, hF]⟩⟩)
      | false =>
        exact Or.inr (Or.inl ⟨rfl, h1,
          Or.inr ⟨rfl, by simp [FindTypeReference, hc, h1, hF]⟩⟩)
    · by_cases h3 : st.findAssemblyRef t.assembly.name = mdAssemblyRefNil
      · exact Or.inr (Or.inr (Or.inl ⟨rfl, h1, h3,
          by simp [FindTypeReference, hc, h1, h3]⟩))
      · by_cases h4 : (st.findTypeRef (st.findAssemblyRef t.assembly.name)
          t.type_name).1 = CLDB_E_RECORD_NOTFOUND
        · cases hF : FAILED (st.defineTypeRefByName
            (st.findAssemblyRef t.assembly.name) t.type_name).1 with
          | true =>
            exact Or.inr (Or.inr (Or.inr (Or.inl ⟨rfl, h1, h3, h4,
              Or.inl ⟨rfl, by simp [FindTypeReference, hc, h1, h3, h4, hF]⟩⟩)))
          | false =>
            exact Or.inr (Or.inr (Or.inr (Or.inl ⟨rfl, h1, h3, h4,
              Or.inr ⟨rfl, by simp [FindTypeReference, hc, h1, h3, h4, hF]⟩⟩)))
        · cases hF : FAILED (st.findTypeRef
            (st.findAssemblyRef t.assembly.name) t.type_name).1 with
          | true =>
            exact Or.inr (Or.inr (Or.inr (Or.inr ⟨rfl, h1, h3, h4,
              Or.inl ⟨rfl, by simp [FindTypeReference, hc, h1, h3, h4, hF]⟩⟩)))
          | false =>
            exact Or.inr (Or.inr (Or.inr (Or.inr ⟨rfl, h1, h3, h4,
              Or.inr ⟨rfl, by simp [FindTypeReference, hc, h1, h3, h4, hF]⟩⟩)))

/-- Case analysis of EmitAssemblyRef: exactly one unconditional define
call, whose failure is returned as is and whose success yields S_OK. -/
theorem ear_cases (st : Store) (a : AssemblyReference) :
    (FAILED (st.defineAssemblyRef a.name a.public_key
        (if a.public_key = PublicKey.zero then 0 else 8)
        (buildAssemblyMetadata a)) = true ∧
      EmitAssemblyRef st a =
        ⟨st.defineAssemblyRef a.name a.public_key
            (if a.public_key = PublicKey.zero then 0 else 8)
            (buildAssemblyMetadata a),
          [StoreOp.defineAssemblyRef a.name a.public_key
            (if a.public_key = PublicKey.zero then 0 else 8)
            (buildAssemblyMetadata a)]⟩) ∨
    (FAILED (st.defineAssemblyRef a.name a.public_key
        (if a.public_key = PublicKey.zero then 0 else 8)
        (buildAssemblyMetadata a)) = false ∧
      EmitAssemblyRef st a =
        ⟨S_OK,
          [StoreOp.defineAssemblyRef a.name a.public_key
            (if a.public_key = PublicKey.zero then 0 else 8)
            (buildAssemblyMetadata a)]⟩) := by
  cases hF : FAILED (st.defineAssemblyRef a.name a.public_key
      (if a.public_key = PublicKey.zero then 0 else 8)
      (buildAssemblyMetadata a)) with
  | true => exact Or.inl ⟨rfl, by simp [EmitAssemblyRef, hF]⟩
  | false => exact Or.inr ⟨rfl, by simp [EmitAssemblyRef, hF]⟩

/-- Exhaustive case analysis of StoreMethodReference: cache hit,
assembly-emission failure, type-resolution failure, member search with
not-found fallback, member search with an answer. -/
theorem smr_cases (st : Store) (module_ : Nat) (md : ModuleMetadata)
    (m : MethodReference) :
    (∃ tok, md.TryGetWrapperMemberRef m.get_method_cache_key = some tok ∧
      StoreMethodReference st module_ md m = ⟨S_OK, md, []⟩) ∨
    (md.TryGetWrapperMemberRef m.get_method_cache_key = none ∧
      FAILED (EmitAssemblyRef st m.type_reference.assembly).hr = true ∧
      StoreMethodReference st module_ md m =
        ⟨(EmitAssemblyRef st m.type_reference.assembly).hr, md,
          (EmitAssemblyRef st m.type_reference.assembly).ops⟩) ∨
    (md.TryGetWrapperMemberRef m.get_method_cache_key = none ∧
      FAILED (EmitAssemblyRef st m.type_reference.assembly).hr = false ∧
      FAILED (FindTypeReference st module_ md m.type_reference
        mdTypeRefNil).hr = true ∧
      StoreMethodReference st module_ md m =
        ⟨(FindTypeReference st module_ md m.type_reference mdTypeRefNil).hr,
          (FindTypeReference st module_ md m.type_reference mdTypeRefNil).md,
          (EmitAssemblyRef st m.type_reference.assembly).ops ++
            (FindTypeReference st module_ md m.type_reference
              mdTypeRefNil).ops⟩) ∨
    (md.TryGetWrapperMemberRef m.get_method_cache_key = none ∧
      FAILED (EmitAssemblyRef st m.type_reference.assembly).hr = false ∧
      FAILED (FindTypeReference st module_ md m.type_reference
        mdTypeRefNil).hr = false ∧
      (st.findMemberRef (FindTypeReference st module_ md m.type_reference
          mdTypeRefNil).out m.method_name m.method_signature.data).1 =
        CLDB_E_RECORD_NOTFOUND ∧
      ((FAILED (st.defineMemberRef (FindTypeReference st module_ md
          m.type_reference mdTypeRefNil).out m.method_name
          m.method_signature.data).1 = true ∧
        StoreMethodReference st module_ md m =
          ⟨(st.defineMemberRef (FindTypeReference st module_ md
              m.type_reference mdTypeRefNil).out m.method_name
              m.method_signature.data).1,
            (FindTypeReference st module_ md m.type_reference mdTypeRefNil).md,
            (EmitAssemblyRef st m.type_reference.assembly).ops ++
              (FindTypeReference st module_ md m.type_reference
                mdTypeRefNil).ops ++
              [StoreOp.findMemberRef (FindTypeReference st module_ md
                m.type_reference mdTypeRefNil).out m.method_name
                m.method_signature.data] ++
              [StoreOp.defineMemberRef (FindTypeReference st module_ md
                m.type_reference mdTypeRefNil).out m.method_name
                m.method_signature.data]⟩) ∨
       (FAILED (st.defineMemberRef (FindTypeReference st module_ md
          m.type_reference mdTypeRefNil).out m.method_name
          m.method_signature.data).1 = false ∧
        StoreMethodReference st module_ md m =
          ⟨S_OK,
            (FindTypeReference st module_ md m.type_reference
              mdTypeRefNil).md.SetWrapperMemberRef m.get_method_cache_key
              (st.defineMemberRef (FindTypeReference st module_ md
                m.type_reference mdTypeRefNil).out m.method_name
                m.method_signature.data).2,
            (EmitAssemblyRef st m.type_reference.assembly).ops ++
              (FindTypeReference st module_ md m.type_reference
                mdTypeRefNil).ops ++
              [StoreOp.findMemberRef (FindTypeReference st module_ md
                m.type_reference mdTypeRefNil).out m.method_name
                m.method_signature.data] ++
              [StoreOp.defineMemberRef (FindTypeReference st module_ md
                m.type_reference mdTypeRefNil).out m.method_name
                m.method_signature.data]⟩))) ∨
    (md.TryGetWrapperMemberRef m.get_method_cache_key = none ∧
      FAILED (EmitAssemblyRef st m.type_reference.assembly).hr = false ∧
      FAILED (FindTypeReference st module_ md m.type_reference
        mdTypeRefNil).hr = false ∧
      ¬ (st.findMemberRef (FindTypeReference st module_ md m.type_reference
          mdTypeRefNil).out m.method_name m.method_signature.data).1 =
        CLDB_E_RECORD_NOTFOUND ∧
      ((FAILED (st.findMemberRef (FindTypeReference st module_ md
          m.type_reference mdTypeRefNil).out m.method_name
          m.method_signature.data).1 = true ∧
        StoreMethodReference st module_ md m =
          ⟨(st.findMemberRef (FindTypeReference st module_ md
              m.type_reference mdTypeRefNil).out m.method_name
              m.method_signature.data).1,
            (FindTypeReference st module_ md m.type_reference mdTypeRefNil).md,
            (EmitAssemblyRef st m.type_reference.assembly).ops ++
              (FindTypeReference st module_ md m.type_reference
                mdTypeRefNil).ops ++
              [StoreOp.findMemberRef (FindTypeReference st module_ md
                m.type_reference mdTypeRefNil).out m.method_name
                m.method_signature.data]⟩) ∨
       (FAILED (st.findMemberRef (FindTypeReference st module_ md
          m.type_reference mdTypeRefNil).out m.method_name
          m.method_signature.data).1 = false ∧
        StoreMethodReference st module_ md m =
          ⟨S_OK,
            (FindTypeReference st module_ md m.type_reference
              mdTypeRefNil).md.SetWrapperMemberRef m.get_method_cache_key
              (st.findMemberRef (FindTypeReference st module_ md
                m.type_reference mdTypeRefNil).out m.method_name
                m.method_signature.data).2,
            (EmitAssemblyRef st m.type_reference.assembly).ops ++
              (FindTypeReference st module_ md m.type_reference
                mdTypeRefNil).ops ++
              [StoreOp.findMemberRef (FindTypeReference st module_ md
                m.type_reference mdTypeRefNil).out m.method_name
                m.method_signature.data]⟩))) := by
  cases hc : md.TryGetWrapperMemberRef m.get_method_cache_key with
  | some tok => exact Or.inl ⟨tok, rfl, by simp [StoreMethodReference, hc]⟩
  | none =>
    cases hA : FAILED (EmitAssemblyRef st m.type_reference.assembly).hr with
    | true =>
      exact Or.inr (Or.inl ⟨rfl, rfl,
        by simp [StoreMethodReference, hc, hA]⟩)
    | false =>
      cases hT : FAILED (FindTypeReference st module_ md m.type_reference
          mdTypeRefNil).hr with
      | true =>
        exact Or.inr (Or.inr (Or.inl ⟨rfl, rfl, rfl,
          by simp [StoreMethodReference, hc, hA, hT]⟩))
      | false =>
        by_cases h4 : (st.findMemberRef (FindTypeReference st module_ md
            m.type_reference mdTypeRefNil).out m.method_name
            m.method_signature.data).1 = CLDB_E_RECORD_NOTFOUND
        · cases hD : FAILED (st.defineMemberRef (FindTypeReference st module_
              md m.type_reference mdTypeRefNil).out m.method_name
              m.method_signature.data).1 with
          | true =>
            exact Or.inr (Or.inr (Or.inr (Or.inl ⟨rfl, rfl, rfl, h4,
              Or.inl ⟨rfl, by simp [StoreMethodReference, hc, hA, hT, h4, hD]⟩⟩)))
          | false =>
            exact Or.inr (Or.inr (Or.inr (Or.inl ⟨rfl, rfl, rfl, h4,
              Or.inr ⟨rfl, by simp [StoreMethodReference, hc, hA, hT, h4, hD]⟩⟩)))
        · cases hM : FAILED (st.findMemberRef (FindTypeReference st module_
              md m.type_reference mdTypeRefNil).out m.method_name
              m.method_signature.data).1 with
          | true =>
            exact Or.inr (Or.inr (Or.inr (Or.inr ⟨rfl, rfl, rfl, h4,
              Or.inl ⟨rfl, by simp [StoreMethodReference, hc, hA, hT, h4, hM]⟩⟩)))
          | false =>
            exact Or.inr (Or.inr (Or.inr (Or.inr ⟨rfl, rfl, rfl, h4,
              Or.inr ⟨rfl, by simp [StoreMethodReference, hc, hA, hT, h4, hM]⟩⟩)))

/-- A cached type key makes FindTypeReference return immediately. -/
theorem ftr_hit (st : Store) (module_ : Nat) (md : ModuleMetadata)
    (t : TypeReference) (out0 tok : Nat)
    (h : md.TryGetWrapperParentTypeRef t.get_type_cache_key = some tok) :
    FindTypeReference st module_ md t out0 = ⟨S_OK, tok, md, []⟩ := by
  simp [FindTypeReference, h]

/-- A cached method key makes StoreMethodReference return immediately. -/
theorem smr_hit (st : Store) (module_ : Nat) (md : ModuleMetadata)
    (m : MethodReference) (tok : Nat)
    (h : md.TryGetWrapperMemberRef m.get_method_cache_key = some tok) :
    StoreMethodReference st module_ md m = ⟨S_OK, md, []⟩ := by
  simp [StoreMethodReference, h]

/-- A non-failing FindTypeReference returned exactly S_OK. -/
theorem ftr_not_failed_sok (st : Store) (module_ : Nat) (md : ModuleMetadata)
    (t : TypeReference) (out0 : Nat)
    (h : FAILED (FindTypeReference st module_ md t out0).hr = false) :
    (FindTypeReference st module_ md t out0).hr = S_OK := by
  rcases ftr_cases st module_ md t out0 with
    ⟨tok, hc, heq⟩ |
    ⟨hc, h1, ⟨hF, heq⟩ | ⟨hF, heq⟩⟩ |
    ⟨hc, h1, h3, heq⟩ |
    ⟨hc, h1, h3, h4, ⟨hF, heq⟩ | ⟨hF, heq⟩⟩ |
    ⟨hc, h1, h3, h4, ⟨hF, heq⟩ | ⟨hF, heq⟩⟩ <;>
  rw [heq] at h ⊢ <;> simp_all [FAILED_E_FAIL]

/-- A failing FindTypeReference leaves the metadata and the out
parameter untouched. -/
theorem ftr_failed_frame (st : Store) (module_ : Nat) (md : ModuleMetadata)
    (t : TypeReference) (out0 : Nat)
    (h : FAILED (FindTypeReference st module_ md t out0).hr = true) :
    (FindTypeReference st module_ md t out0).md = md ∧
    (FindTypeReference st module_ md t out0).out = out0 := by
  rcases ftr_cases st module_ md t out0 with
    ⟨tok, hc, heq⟩ |
    ⟨hc, h1, ⟨hF, heq⟩ | ⟨hF, heq⟩⟩ |
    ⟨hc, h1, h3, heq⟩ |
    ⟨hc, h1, h3, h4, ⟨hF, heq⟩ | ⟨hF, heq⟩⟩ |
    ⟨hc, h1, h3, h4, ⟨hF, heq⟩ | ⟨hF, heq⟩⟩ <;>
  rw [heq] at h ⊢ <;> simp_all [FAILED_S_OK]

/-- A successful FindTypeReference leaves the returned token in the
type cache under the cache key of the descriptor. -/
theorem ftr_success_cached (st : Store) (module_ : Nat) (md : ModuleMetadata)
    (t : TypeReference) (out0 : Nat)
    (h : FAILED (FindTypeReference st module_ md t out0).hr = false) :
    (FindTypeReference st module_ md t out0).md.TryGetWrapperParentTypeRef
      t.get_type_cache_key = some (FindTypeReference st module_ md t out0).out := by
  rcases ftr_cases st module_ md t out0 with
    ⟨tok, hc, heq⟩ |
    ⟨hc, h1, ⟨hF, heq⟩ | ⟨hF, heq⟩⟩ |
    ⟨hc, h1, h3, heq⟩ |
    ⟨hc, h1, h3, h4, ⟨hF, heq⟩ | ⟨hF, heq⟩⟩ |
    ⟨hc, h1, h3, h4, ⟨hF, heq⟩ | ⟨hF, heq⟩⟩ <;>
  rw [heq] at h ⊢ <;> simp_all [FAILED_E_FAIL, tryget_set_self]

/-- FindTypeReference never touches the member-reference cache. -/
theorem ftr_member_cache_eq (st : Store) (module_ : Nat) (md : ModuleMetadata)
    (t : TypeReference) (out0 : Nat) :
    (FindTypeReference st module_ md t out0).md.member_ref_cache =
      md.member_ref_cache := by
  rcases ftr_cases st module_ md t out0 with
    ⟨tok, hc, heq⟩ |
    ⟨hc, h1, ⟨hF, heq⟩ | ⟨hF, heq⟩⟩ |
    ⟨hc, h1, h3, heq⟩ |
    ⟨hc, h1, h3, h4, ⟨hF, heq⟩ | ⟨hF, heq⟩⟩ |
    ⟨hc, h1, h3, h4, ⟨hF, heq⟩ | ⟨hF, heq⟩⟩ <;>
  rw [heq] <;> simp [ModuleMetadata.SetWrapperParentTypeRef]

/-- FindTypeReference never touches the foundational type_refs map. -/
theorem ftr_type_refs_eq (st : Store) (module_ : Nat) (md : ModuleMetadata)
    (t : TypeReference) (out0 : Nat) :
    (FindTypeReference st module_ md t out0).md.type_refs = md.type_refs := by
  rcases ftr_cases st module_ md t out0 with
    ⟨tok, hc, heq⟩ |
    ⟨hc, h1, ⟨hF, heq⟩ | ⟨hF, heq⟩⟩ |
    ⟨hc, h1, h3, heq⟩ |
    ⟨hc, h1, h3, h4, ⟨hF, heq⟩ | ⟨hF, heq⟩⟩ |
    ⟨hc, h1, h3, h4, ⟨hF, heq⟩ | ⟨hF, heq⟩⟩ <;>
  rw [heq] <;> simp [ModuleMetadata.SetWrapperParentTypeRef]

/-- The type cache after FindTypeReference is either untouched or
extended by exactly one entry under the descriptor's key. -/
theorem ftr_cache_cases (st : Store) (module_ : Nat) (md : ModuleMetadata)
    (t : TypeReference) (out0 : Nat) :
    (FindTypeReference st module_ md t out0).md.type_ref_cache =
      md.type_ref_cache ∨
    ∃ tok, (FindTypeReference st module_ md t out0).md.type_ref_cache =
      (t.get_type_cache_key, tok) :: md.type_ref_cache := by
  rcases ftr_cases st module_ md t out0 with
    ⟨tok, hc, heq⟩ |
    ⟨hc, h1, ⟨hF, heq⟩ | ⟨hF, heq⟩⟩ |
    ⟨hc, h1, h3, heq⟩ |
    ⟨hc, h1, h3, h4, ⟨hF, heq⟩ | ⟨hF, heq⟩⟩ |
    ⟨hc, h1, h3, h4, ⟨hF, heq⟩ | ⟨hF, heq⟩⟩ <;>
  rw [heq] <;>
  first
    | exact Or.inl rfl
    | exact Or.inr ⟨_, rfl⟩

/-- The single define trace of EmitAssemblyRef, independent of the
store answer. -/
theorem ear_ops (st : Store) (a : AssemblyReference) :
    (EmitAssemblyRef st a).ops =
      [StoreOp.defineAssemblyRef a.name a.public_key
        (if a.public_key = PublicKey.zero then 0 else 8)
        (buildAssemblyMetadata a)] := by
  rcases ear_cases st a with ⟨hF, heq⟩ | ⟨hF, heq⟩ <;> rw [heq]

/-- A failing StoreMethodReference leaves the member cache untouched. -/
theorem smr_failed_member_cache_eq (st : Store) (module_ : Nat)
    (md : ModuleMetadata) (m : MethodReference)
    (h : FAILED (StoreMethodReference st module_ md m).hr = true) :
    (StoreMethodReference st module_ md m).md.member_ref_cache =
      md.member_ref_cache := by
  rcases smr_cases st module_ md m with
    ⟨tok, hc, heq⟩ | ⟨hc, hA, heq⟩ | ⟨hc, hA, hT, heq⟩ |
    ⟨hc, hA, hT, h4, ⟨hD, heq⟩ | ⟨hD, heq⟩⟩ |
    ⟨hc, hA, hT, h4, ⟨hM, heq⟩ | ⟨hM, heq⟩⟩ <;>
  rw [heq] at h ⊢ <;>
  simp_all [FAILED_S_OK, ftr_member_cache_eq]

/-- A failing StoreMethodReference leaves the foundational type_refs
map untouched. -/
theorem smr_failed_type_refs_eq (st : Store) (module_ : Nat)
    (md : ModuleMetadata) (m : MethodReference)
    (h : FAILED (StoreMethodReference st module_ md m).hr = true) :
    (StoreMethodReference st module_ md m).md.type_refs = md.type_refs := by
  rcases smr_cases st module_ md m with
    ⟨tok, hc, heq⟩ | ⟨hc, hA, heq⟩ | ⟨hc, hA, hT, heq⟩ |
    ⟨hc, hA, hT, h4, ⟨hD, heq⟩ | ⟨hD, heq⟩⟩ |
    ⟨hc, hA, hT, h4, ⟨hM, heq⟩ | ⟨hM, heq⟩⟩ <;>
  rw [heq] at h ⊢ <;>
  simp_all [FAILED_S_OK, ftr_type_refs_eq]

/-- The type cache after a failing StoreMethodReference is either
untouched or extended by exactly the entry of its successfully
resolved owning type. -/
theorem smr_failed_type_cache_cases (st : Store) (module_ : Nat)
    (md : ModuleMetadata) (m : MethodReference)
    (h : FAILED (StoreMethodReference st module_ md m).hr = true) :
    (StoreMethodReference st module_ md m).md.type_ref_cache =
      md.type_ref_cache ∨
    ∃ tok, (StoreMethodReference st module_ md m).md.type_ref_cache =
      (m.type_reference.get_type_cache_key, tok) :: md.type_ref_cache := by
  rcases smr_cases st module_ md m with
    ⟨tok, hc, heq⟩ | ⟨hc, hA, heq⟩ | ⟨hc, hA, hT, heq⟩ |
    ⟨hc, hA, hT, h4, ⟨hD, heq⟩ | ⟨hD, heq⟩⟩ |
    ⟨hc, hA, hT, h4, ⟨hM, heq⟩ | ⟨hM, heq⟩⟩
  · rw [heq] at h
    simp [FAILED_S_OK] at h
  · rw [heq]
    exact Or.inl rfl
  · rw [heq]
    rw [(ftr_failed_frame st module_ md m.type_reference mdTypeRefNil hT).1]
    exact Or.inl rfl
  · rw [heq]
    exact ftr_cache_cases st module_ md m.type_reference mdTypeRefNil
  · rw [heq] at h
    simp [FAILED_S_OK] at h
  · rw [heq]
    exact ftr_cache_cases st module_ md m.type_reference mdTypeRefNil
  · rw [heq] at h
    simp [FAILED_S_OK] at h

/-- A successful StoreMethodReference leaves a token in the member
cache under the cache key of the descriptor. -/
theorem smr_success_cached (st : Store) (module_ : Nat)
    (md : ModuleMetadata) (m : MethodReference)
    (h : FAILED (StoreMethodReference st module_ md m).hr = false) :
    ∃ tok, (StoreMethodReference st module_ md m).md.TryGetWrapperMemberRef
      m.get_method_cache_key = some tok := by
  rcases smr_cases st module_ md m with
    ⟨tok, hc, heq⟩ | ⟨hc, hA, heq⟩ | ⟨hc, hA, hT, heq⟩ |
    ⟨hc, hA, hT, h4, ⟨hD, heq⟩ | ⟨hD, heq⟩⟩ |
    ⟨hc, hA, hT, h4, ⟨hM, heq⟩ | ⟨hM, heq⟩⟩ <;>
  rw [heq] at h ⊢ <;>
  simp_all [tryget_member_set_self]

/-! ### Claims -/

/-- Claim C1: resolving the same TypeReference or MethodReference twice
against one ModuleMetadata with an otherwise-unchanged store yields the
identical token both times, and the second call performs zero store
operations: it returns the cached entry with an empty store trace and
an unchanged ModuleMetadata. -/
theorem claim_c1_cache_idempotence (st : Store) (module_ : Nat)
    (md : ModuleMetadata) (t : TypeReference) (m : MethodReference)
    (out0 out1 : Nat) :
    (FAILED (FindTypeReference st module_ md t out0).hr = false →
      FindTypeReference st module_ (FindTypeReference st module_ md t out0).md
        t out1 =
        ⟨S_OK, (FindTypeReference st module_ md t out0).out,
          (FindTypeReference st module_ md t out0).md, []⟩) ∧
    (FAILED (StoreMethodReference st module_ md m).hr = false →
      StoreMethodReference st module_
        (StoreMethodReference st module_ md m).md m =
        ⟨S_OK, (StoreMethodReference st module_ md m).md, []⟩) := by
  constructor
  · intro h
    exact ftr_hit st module_ _ t out1 _ (ftr_success_cached st module_ md t out0 h)
  · intro h
    obtain ⟨tok, htok⟩ := smr_success_cached st module_ md m h
    exact smr_hit st module_ _ m tok htok

/-- Witness for C1 at a concrete store and module: both a type and a
method resolution succeed, and the repeated call returns the same token
with an empty store trace. -/
theorem claim_c1_witness :
    FindTypeReference stOk 5 (FindTypeReference stOk 5 mdMyApp trHelper 0).md
        trHelper 0 =
      ⟨S_OK, (FindTypeReference stOk 5 mdMyApp trHelper 0).out,
        (FindTypeReference stOk 5 mdMyApp trHelper 0).md, []⟩ ∧
    StoreMethodReference stOk 5
        (StoreMethodReference stOk 5 mdMyApp mrLog).md mrLog =
      ⟨S_OK, (StoreMethodReference stOk 5 mdMyApp mrLog).md, []⟩ :=
  ⟨(claim_c1_cache_idempotence stOk 5 mdMyApp trHelper mrLog 0 0).1 (by decide),
   (claim_c1_cache_idempotence stOk 5 mdMyApp trHelper mrLog 0 0).2 (by decide)⟩

/-- Claim C2: on a cache miss, a TypeReference naming the module's own
assembly is resolved by a single define scoped to the module token and
no search of any kind; any other assembly name leads to the
cross-assembly path whose trace is the assembly lookup alone, the
lookup followed by the type search, or the lookup, the search and then
a define — so a define never happens without a preceding search. -/
theorem claim_c2_branch_selection (st : Store) (module_ : Nat)
    (md : ModuleMetadata) (t : TypeReference) (out0 : Nat)
    (hmiss : md.TryGetWrapperParentTypeRef t.get_type_cache_key = none) :
    (md.assemblyName = t.assembly.name →
      (FindTypeReference st module_ md t out0).ops =
        [StoreOp.defineTypeRefByName module_ t.type_name]) ∧
    (¬ md.assemblyName = t.assembly.name →
      (FindTypeReference st module_ md t out0).ops =
        [StoreOp.findAssemblyRef t.assembly.name] ∨
      (FindTypeReference st module_ md t out0).ops =
        [StoreOp.findAssemblyRef t.assembly.name,
         StoreOp.findTypeRef (st.findAssemblyRef t.assembly.name)
           t.type_name] ∨
      (FindTypeReference st module_ md t out0).ops =
        [StoreOp.findAssemblyRef t.assembly.name,
         StoreOp.findTypeRef (st.findAssemblyRef t.assembly.name) t.type_name,
         StoreOp.defineTypeRefByName (st.findAssemblyRef t.assembly.name)
           t.type_name]) := by
  constructor
  · intro hs
    rcases ftr_cases st module_ md t out0 with
      ⟨tok, hc, heq⟩ | ⟨hc, h1, ⟨hF, heq⟩ | ⟨hF, heq⟩⟩ | ⟨hc, h1, h3, heq⟩ |
      ⟨hc, h1, h3, h4, ⟨hF, heq⟩ | ⟨hF, heq⟩⟩ |
      ⟨hc, h1, h3, h4, ⟨hF, heq⟩ | ⟨hF, heq⟩⟩ <;>
    rw [heq] <;>
    first
      | rfl
      | exact Option.noConfusion (hmiss ▸ hc)
      | exact absurd hs h1
  · intro hs
    rcases ftr_cases st module_ md t out0 with
      ⟨tok, hc, heq⟩ | ⟨hc, h1, ⟨hF, heq⟩ | ⟨hF, heq⟩⟩ | ⟨hc, h1, h3, heq⟩ |
      ⟨hc, h1, h3, h4, ⟨hF, heq⟩ | ⟨hF, heq⟩⟩ |
      ⟨hc, h1, h3, h4, ⟨hF, heq⟩ | ⟨hF, heq⟩⟩ <;>
    rw [heq] <;>
    first
      | exact Option.noConfusion (hmiss ▸ hc)
      | exact absurd h1 hs
      | exact Or.inl rfl
      | exact Or.inr (Or.inr rfl)
      | exact Or.inr (Or.inl rfl)

/-- Witness for C2: on the concrete store, the same-module descriptor
produces exactly one module-scoped define, and the cross-assembly
descriptor produces the lookup-search-define trace. -/
theorem claim_c2_witness :
    (FindTypeReference stOk 5 mdMyApp trHelper 0).ops =
      [StoreOp.defineTypeRefByName 5 trHelper.type_name] ∧
    ((FindTypeReference stOk 5 mdMyApp trOther 0).ops =
      [StoreOp.findAssemblyRef trOther.assembly.name] ∨
    (FindTypeReference stOk 5 mdMyApp trOther 0).ops =
      [StoreOp.findAssemblyRef trOther.assembly.name,
       StoreOp.findTypeRef (stOk.findAssemblyRef trOther.assembly.name)
         trOther.type_name] ∨
    (FindTypeReference stOk 5 mdMyApp trOther 0).ops =
      [StoreOp.findAssemblyRef trOther.assembly.name,
       StoreOp.findTypeRef (stOk.findAssemblyRef trOther.assembly.name)
         trOther.type_name,
       StoreOp.defineTypeRefByName (stOk.findAssemblyRef trOther.assembly.name)
         trOther.type_name]) :=
  ⟨(claim_c2_branch_selection stOk 5 mdMyApp trHelper 0 (by decide)).1 (by decide),
   (claim_c2_branch_selection stOk 5 mdMyApp trOther 0 (by decide)).2 (by decide)⟩

/-- Claim C3: on a cache miss for a cross-assembly type whose owning
assembly reference does not exist in the store, FindTypeReference
returns E_FAIL after the single assembly lookup: no define of any kind,
no assembly emission, no cache insertion, and the out parameter is
untouched. -/
theorem claim_c3_missing_assembly_ref (st : Store) (module_ : Nat)
    (md : ModuleMetadata) (t : TypeReference) (out0 : Nat)
    (hmiss : md.TryGetWrapperParentTypeRef t.get_type_cache_key = none)
    (hcross : ¬ md.assemblyName = t.assembly.name)
    (hnil : st.findAssemblyRef t.assembly.name = mdAssemblyRefNil) :
    FindTypeReference st module_ md t out0 =
      ⟨E_FAIL, out0, md, [StoreOp.findAssemblyRef t.assembly.name]⟩ := by
  simp [FindTypeReference, hmiss, hcross, hnil]

/-- Witness for C3 on the store double with no assembly references. -/
theorem claim_c3_witness :
    FindTypeReference stNoAsm 5 mdMyApp trOther 12345 =
      ⟨E_FAIL, 12345, mdMyApp, [StoreOp.findAssemblyRef trOther.assembly.name]⟩ :=
  claim_c3_missing_assembly_ref stNoAsm 5 mdMyApp trOther 12345
    (by decide) (by decide) (by decide)

/-- Claim C10: whenever FindTypeReference returns an error, the
caller-supplied output token parameter keeps its previous value: it is
assigned only on the success paths. -/
theorem claim_c10_out_param_frame (st : Store) (module_ : Nat)
    (md : ModuleMetadata) (t : TypeReference) (out0 : Nat)
    (h : FAILED (FindTypeReference st module_ md t out0).hr = true) :
    (FindTypeReference st module_ md t out0).out = out0 :=
  (ftr_failed_frame st module_ md t out0 h).2

/-- Witness for C10: a failing resolution leaves the concrete initial
out value 12345 in place. -/
theorem claim_c10_witness :
    (FindTypeReference stNoAsm 5 mdMyApp trOther 12345).out = 12345 :=
  claim_c10_out_param_frame stNoAsm 5 mdMyApp trOther 12345 (by decide)

/-- FindTypeReference never issues a member-reference define. -/
theorem ftr_no_member_define (st : Store) (module_ : Nat)
    (md : ModuleMetadata) (t : TypeReference) (out0 : Nat) (scope : Nat)
    (nm : String) (sig : List Nat) :
    StoreOp.defineMemberRef scope nm sig ∉
      (FindTypeReference st module_ md t out0).ops := by
  rcases ftr_cases st module_ md t out0 with
    ⟨tok, hc, heq⟩ |
    ⟨hc, h1, ⟨hF, heq⟩ | ⟨hF, heq⟩⟩ |
    ⟨hc, h1, h3, heq⟩ |
    ⟨hc, h1, h3, h4, ⟨hF, heq⟩ | ⟨hF, heq⟩⟩ |
    ⟨hc, h1, h3, h4, ⟨hF, heq⟩ | ⟨hF, heq⟩⟩ <;>
  rw [heq] <;> simp

/-- Claim C4: for both resolution paths that reach the search step, the
distinguished record-not-found outcome falls through to a define whose
success is cached, a found token is cached with no define ever issued,
and any other search error aborts the resolution with that error. -/
theorem claim_c4_search_protocol (st : Store) (module_ : Nat) :
    (∀ (md : ModuleMetadata) (t : TypeReference) (out0 : Nat),
      md.TryGetWrapperParentTypeRef t.get_type_cache_key = none →
      ¬ md.assemblyName = t.assembly.name →
      ¬ st.findAssemblyRef t.assembly.name = mdAssemblyRefNil →
      (((st.findTypeRef (st.findAssemblyRef t.assembly.name) t.type_name).1 =
          CLDB_E_RECORD_NOTFOUND →
        StoreOp.defineTypeRefByName (st.findAssemblyRef t.assembly.name)
          t.type_name ∈ (FindTypeReference st module_ md t out0).ops ∧
        (FAILED (st.defineTypeRefByName (st.findAssemblyRef t.assembly.name)
            t.type_name).1 = false →
          (FindTypeReference st module_ md t out0).hr = S_OK ∧
          (FindTypeReference st module_ md t out0).out =
            (st.defineTypeRefByName (st.findAssemblyRef t.assembly.name)
              t.type_name).2 ∧
          (FindTypeReference st module_ md t
            out0).md.TryGetWrapperParentTypeRef t.get_type_cache_key =
            some (st.defineTypeRefByName (st.findAssemblyRef t.assembly.name)
              t.type_name).2) ∧
        (FAILED (st.defineTypeRefByName (st.findAssemblyRef t.assembly.name)
            t.type_name).1 = true →
          (FindTypeReference st module_ md t out0).hr =
            (st.defineTypeRefByName (st.findAssemblyRef t.assembly.name)
              t.type_name).1)) ∧
      (FAILED (st.findTypeRef (st.findAssemblyRef t.assembly.name)
          t.type_name).1 = false →
        (FindTypeReference st module_ md t out0).hr = S_OK ∧
        (FindTypeReference st module_ md t out0).out =
          (st.findTypeRef (st.findAssemblyRef t.assembly.name) t.type_name).2 ∧
        (FindTypeReference st module_ md t out0).md.TryGetWrapperParentTypeRef
          t.get_type_cache_key =
          some (st.findTypeRef (st.findAssemblyRef t.assembly.name)
            t.type_name).2 ∧
        ∀ scope nm, StoreOp.defineTypeRefByName scope nm ∉
          (FindTypeReference st module_ md t out0).ops) ∧
      (¬ (st.findTypeRef (st.findAssemblyRef t.assembly.name) t.type_name).1 =
          CLDB_E_RECORD_NOTFOUND →
        FAILED (st.findTypeRef (st.findAssemblyRef t.assembly.name)
          t.type_name).1 = true →
        (FindTypeReference st module_ md t out0).hr =
          (st.findTypeRef (st.findAssemblyRef t.assembly.name) t.type_name).1 ∧
        (FindTypeReference st module_ md t out0).md = md))) ∧
    (∀ (md : ModuleMetadata) (m : MethodReference),
      md.TryGetWrapperMemberRef m.get_method_cache_key = none →
      FAILED (EmitAssemblyRef st m.type_reference.assembly).hr = false →
      FAILED (FindTypeReference st module_ md m.type_reference
        mdTypeRefNil).hr = false →
      (((st.findMemberRef (FindTypeReference st module_ md m.type_reference
          mdTypeRefNil).out m.method_name m.method_signature.data).1 =
          CLDB_E_RECORD_NOTFOUND →
        StoreOp.defineMemberRef (FindTypeReference st module_ md
          m.type_reference mdTypeRefNil).out m.method_name
          m.method_signature.data ∈ (StoreMethodReference st module_ md m).ops ∧
        (FAILED (st.defineMemberRef (FindTypeReference st module_ md
            m.type_reference mdTypeRefNil).out m.method_name
            m.method_signature.data).1 = false →
          (StoreMethodReference st module_ md m).hr = S_OK ∧
          (StoreMethodReference st module_ md m).md.TryGetWrapperMemberRef
            m.get_method_cache_key =
            some (st.defineMemberRef (FindTypeReference st module_ md
              m.type_reference mdTypeRefNil).out m.method_name
              m.method_signature.data).2) ∧
        (FAILED (st.defineMemberRef (FindTypeReference st module_ md
            m.type_reference mdTypeRefNil).out m.method_name
            m.method_signature.data).1 = true →
          (StoreMethodReference st module_ md m).hr =
            (st.defineMemberRef (FindTypeReference st module_ md
              m.type_reference mdTypeRefNil).out m.method_name
              m.method_signature.data).1)) ∧
      (FAILED (st.findMemberRef (FindTypeReference st module_ md
          m.type_reference mdTypeRefNil).out m.method_name
          m.method_signature.data).1 = false →
        (StoreMethodReference st module_ md m).hr = S_OK ∧
        (StoreMethodReference st module_ md m).md.TryGetWrapperMemberRef
          m.get_method_cache_key =
          some (st.findMemberRef (FindTypeReference st module_ md
            m.type_reference mdTypeRefNil).out m.method_name
            m.method_signature.data).2 ∧
        ∀ scope nm sig, StoreOp.defineMemberRef scope nm sig ∉
          (StoreMethodReference st module_ md m).ops) ∧
      (¬ (st.findMemberRef (FindTypeReference st module_ md m.type_reference
          mdTypeRefNil).out m.method_name m.method_signature.data).1 =
          CLDB_E_RECORD_NOTFOUND →
        FAILED (st.findMemberRef (FindTypeReference st module_ md
          m.type_reference mdTypeRefNil).out m.method_name
          m.method_signature.data).1 = true →
        (StoreMethodReference st module_ md m).hr =
          (st.findMemberRef (FindTypeReference st module_ md m.type_reference
            mdTypeRefNil).out m.method_name m.method_signature.data).1))) := by
  constructor
  · intro md t out0 hmiss hcross hnotnil
    rcases ftr_cases st module_ md t out0 with
      ⟨tok, hc, heq⟩ | ⟨hc, h1, ⟨hF, heq⟩ | ⟨hF, heq⟩⟩ | ⟨hc, h1, h3, heq⟩ |
      ⟨hc, h1, h3, h4, ⟨hF, heq⟩ | ⟨hF, heq⟩⟩ |
      ⟨hc, h1, h3, h4, ⟨hF, heq⟩ | ⟨hF, heq⟩⟩
    · exact Option.noConfusion (hmiss ▸ hc)
    · exact absurd h1 hcross
    · exact absurd h1 hcross
    · exact absurd h3 hnotnil
    · -- search reported not-found, define failed
      refine ⟨fun _ => ⟨by rw [heq]; simp, fun hd => ?_, fun _ => by rw [heq]⟩,
        fun hf => ?_, fun hn _ => absurd h4 hn⟩
      · rw [hF] at hd
        exact Bool.noConfusion hd
      · rw [h4, FAILED_NOTFOUND] at hf
        exact Bool.noConfusion hf
    · -- search reported not-found, define succeeded
      refine ⟨fun _ => ⟨by rw [heq]; simp,
        fun _ => by rw [heq]; exact ⟨rfl, rfl, tryget_set_self md _ _⟩,
        fun hd => ?_⟩, fun hf => ?_, fun hn _ => absurd h4 hn⟩
      · rw [hF] at hd
        exact Bool.noConfusion hd
      · rw [h4, FAILED_NOTFOUND] at hf
        exact Bool.noConfusion hf
    · -- search returned another error
      refine ⟨fun hnf => absurd hnf h4, fun hf => ?_,
        fun _ _ => by rw [heq]; exact ⟨rfl, rfl⟩⟩
      rw [hF] at hf
      exact Bool.noConfusion hf
    · -- search found an existing token
      refine ⟨fun hnf => absurd hnf h4,
        fun _ => by rw [heq]; exact ⟨rfl, rfl, tryget_set_self md _ _, by simp⟩,
        fun _ hfa => ?_⟩
      rw [hF] at hfa
      exact Bool.noConfusion hfa
  · intro md m hmiss hA hT
    rcases smr_cases st module_ md m with
      ⟨tok, hc, heq⟩ | ⟨hc, hA2, heq⟩ | ⟨hc, hA2, hT2, heq⟩ |
      ⟨hc, hA2, hT2, h4, ⟨hD, heq⟩ | ⟨hD, heq⟩⟩ |
      ⟨hc, hA2, hT2, h4, ⟨hM, heq⟩ | ⟨hM, heq⟩⟩
    · exact Option.noConfusion (hmiss ▸ hc)
    · exact Bool.noConfusion (hA ▸ hA2)
    · exact Bool.noConfusion (hT ▸ hT2)
    · -- member search not-found, define failed
      refine ⟨fun _ => ⟨by rw [heq]; simp, fun hd => ?_, fun _ => by rw [heq]⟩,
        fun hf => ?_, fun hn _ => absurd h4 hn⟩
      · rw [hD] at hd
        exact Bool.noConfusion hd
      · rw [h4, FAILED_NOTFOUND] at hf
        exact Bool.noConfusion hf
    · -- member search not-found, define succeeded
      refine ⟨fun _ => ⟨by rw [heq]; simp,
        fun _ => by rw [heq]; exact ⟨rfl, tryget_member_set_self _ _ _⟩,
        fun hd => ?_⟩, fun hf => ?_, fun hn _ => absurd h4 hn⟩
      · rw [hD] at hd
        exact Bool.noConfusion hd
      · rw [h4, FAILED_NOTFOUND] at hf
        exact Bool.noConfusion hf
    · -- member search returned another error
      refine ⟨fun hnf => absurd hnf h4, fun hf => ?_,
        fun _ _ => by rw [heq]⟩
      rw [hM] at hf
      exact Bool.noConfusion hf
    · -- member search found an existing token
      refine ⟨fun hnf => absurd hnf h4,
        fun _ => by
          rw [heq]
          exact ⟨rfl, tryget_member_set_self _ _ _,
            fun scope nm sig => by
              rw [ear_ops]
              simp [ftr_no_member_define st module_ md m.type_reference
                mdTypeRefNil scope nm sig]⟩,
        fun _ hfa => ?_⟩
      rw [hM] at hfa
      exact Bool.noConfusion hfa

/-- Witness for C4: with the not-found store the define fallback runs
and resolution succeeds; with the found store resolution succeeds and
no define is ever issued, on both the type and the member path. -/
theorem claim_c4_witness :
    (FindTypeReference stOk 5 mdMyApp trOther 0).hr = S_OK ∧
    StoreOp.defineTypeRefByName (stOk.findAssemblyRef trOther.assembly.name)
      trOther.type_name ∈ (FindTypeReference stOk 5 mdMyApp trOther 0).ops ∧
    (FindTypeReference stFound 5 mdMyApp trOther 0).hr = S_OK ∧
    (∀ scope nm, StoreOp.defineTypeRefByName scope nm ∉
      (FindTypeReference stFound 5 mdMyApp trOther 0).ops) ∧
    (StoreMethodReference stOk 5 mdMyApp mrLog).hr = S_OK ∧
    (StoreMethodReference stFound 5 mdMyApp mrLog).hr = S_OK ∧
    (∀ scope nm sig, StoreOp.defineMemberRef scope nm sig ∉
      (StoreMethodReference stFound 5 mdMyApp mrLog).ops) := by
  have hA := (claim_c4_search_protocol stOk 5).1 mdMyApp trOther 0
    (by decide) (by decide) (by decide)
  have hB := (claim_c4_search_protocol stFound 5).1 mdMyApp trOther 0
    (by decide) (by decide) (by decide)
  have hC := (claim_c4_search_protocol stOk 5).2 mdMyApp mrLog
    (by decide) (by decide) (by decide)
  have hD := (claim_c4_search_protocol stFound 5).2 mdMyApp mrLog
    (by decide) (by decide) (by decide)
  exact ⟨((hA.1 (by decide)).2.1 (by decide)).1,
    (hA.1 (by decide)).1,
    (hB.2.1 (by decide)).1,
    (hB.2.1 (by decide)).2.2.2,
    ((hC.1 (by decide)).2.1 (by decide)).1,
    (hD.2.1 (by decide)).1,
    (hD.2.1 (by decide)).2.2⟩

/-- Counterexample to C5 as stated: a StoreMethodReference call that
returns an error (its member search fails with a generic store error)
nevertheless leaves a brand-new entry in type_ref_cache, inserted by
its successful nested FindTypeReference before the failure. -/
theorem claim_c5_counterexample :
    FAILED (StoreMethodReference stMemberErr 5 mdMyApp mrLog).hr = true ∧
    mdMyApp.type_ref_cache = [] ∧
    (StoreMethodReference stMemberErr 5 mdMyApp mrLog).md.type_ref_cache =
      [(trHelper.get_type_cache_key, 0x01000007)] := by
  decide

/-- Claim C5 (amended): a failing FindTypeReference leaves the
ModuleMetadata exactly as before the call; a failing
StoreMethodReference leaves member_ref_cache and type_refs untouched
and never modifies or removes existing entries, but its type_ref_cache
may additionally have gained exactly one entry, the one inserted by its
successful nested type resolution. -/
theorem claim_c5_no_partial_state (st : Store) (module_ : Nat)
    (md : ModuleMetadata) (t : TypeReference) (m : MethodReference)
    (out0 : Nat) :
    (FAILED (FindTypeReference st module_ md t out0).hr = true →
      (FindTypeReference st module_ md t out0).md = md) ∧
    (FAILED (StoreMethodReference st module_ md m).hr = true →
      (StoreMethodReference st module_ md m).md.member_ref_cache =
        md.member_ref_cache ∧
      (StoreMethodReference st module_ md m).md.type_refs = md.type_refs ∧
      ((StoreMethodReference st module_ md m).md.type_ref_cache =
        md.type_ref_cache ∨
       ∃ tok, (StoreMethodReference st module_ md m).md.type_ref_cache =
        (m.type_reference.get_type_cache_key, tok) :: md.type_ref_cache)) :=
  ⟨fun h => (ftr_failed_frame st module_ md t out0 h).1,
   fun h => ⟨smr_failed_member_cache_eq st module_ md m h,
     smr_failed_type_refs_eq st module_ md m h,
     smr_failed_type_cache_cases st module_ md m h⟩⟩

/-- Witness for the amended C5 at the concrete failing stores. -/
theorem claim_c5_witness :
    (FindTypeReference stNoAsm 5 mdMyApp trOther 0).md = mdMyApp ∧
    ((StoreMethodReference stMemberErr 5 mdMyApp mrLog).md.member_ref_cache =
       mdMyApp.member_ref_cache ∧
     (StoreMethodReference stMemberErr 5 mdMyApp mrLog).md.type_refs =
       mdMyApp.type_refs ∧
     ((StoreMethodReference stMemberErr 5 mdMyApp mrLog).md.type_ref_cache =
        mdMyApp.type_ref_cache ∨
      ∃ tok, (StoreMethodReference stMemberErr 5 mdMyApp
          mrLog).md.type_ref_cache =
        (mrLog.type_reference.get_type_cache_key, tok) ::
          mdMyApp.type_ref_cache)) :=
  ⟨(claim_c5_no_partial_state stNoAsm 5 mdMyApp trOther mrLog 0).1 (by decide),
   (claim_c5_no_partial_state stMemberErr 5 mdMyApp trOther mrLog 0).2
     (by decide)⟩

/-- Claim C6: StoreMethodAdvice resolves the on-enter reference first
and on its failure returns that error with the on-exit resolution never
attempted (the trace is exactly the on-enter trace); when on-enter
succeeds and on-exit fails, the on-exit error is returned and the
on-enter cache entry remains in member_ref_cache. -/
theorem claim_c6_advice_short_circuit (st : Store) (module_ : Nat)
    (md : ModuleMetadata) (a : MethodAdvice) :
    (FAILED (StoreMethodReference st module_ md a.on_enter).hr = true →
      StoreMethodAdvice st module_ md a =
        ⟨(StoreMethodReference st module_ md a.on_enter).hr,
         (StoreMethodReference st module_ md a.on_enter).md,
         (StoreMethodReference st module_ md a.on_enter).ops⟩) ∧
    (FAILED (StoreMethodReference st module_ md a.on_enter).hr = false →
      FAILED (StoreMethodReference st module_
        (StoreMethodReference st module_ md a.on_enter).md a.on_exit).hr =
        true →
      (StoreMethodAdvice st module_ md a).hr =
        (StoreMethodReference st module_
          (StoreMethodReference st module_ md a.on_enter).md a.on_exit).hr ∧
      (StoreMethodAdvice st module_ md a).md.member_ref_cache =
        (StoreMethodReference st module_ md a.on_enter).md.member_ref_cache ∧
      ∃ tok, (StoreMethodAdvice st module_ md a).md.TryGetWrapperMemberRef
        a.on_enter.get_method_cache_key = some tok) := by
  constructor
  · intro h1
    simp [StoreMethodAdvice, MethodAdvice.OnMethodEnterReference, h1]
  · intro h1 h2
    have hsma : StoreMethodAdvice st module_ md a =
        ⟨(StoreMethodReference st module_
            (StoreMethodReference st module_ md a.on_enter).md a.on_exit).hr,
         (StoreMethodReference st module_
            (StoreMethodReference st module_ md a.on_enter).md a.on_exit).md,
         (StoreMethodReference st module_ md a.on_enter).ops ++
           (StoreMethodReference st module_
             (StoreMethodReference st module_ md a.on_enter).md
             a.on_exit).ops⟩ := by
      simp [StoreMethodAdvice, MethodAdvice.OnMethodEnterReference,
        MethodAdvice.OnMethodExitReference, h1, h2]
    have hmc := smr_failed_member_cache_eq st module_
      (StoreMethodReference st module_ md a.on_enter).md a.on_exit h2
    obtain ⟨tok, htok⟩ := smr_success_cached st module_ md a.on_enter h1
    refine ⟨by rw [hsma], by rw [hsma]; exact hmc, tok, ?_⟩
    rw [hsma]
    simp only [ModuleMetadata.TryGetWrapperMemberRef] at htok ⊢
    rw [hmc]
    exact htok

/-- Witness for C6: with the assembly-emission failing store the
on-enter failure short-circuits; with the no-assembly store the
on-enter reference resolves and stays cached while on-exit fails. -/
theorem claim_c6_witness :
    StoreMethodAdvice stAsmEmitErr 5 mdMyApp advMix =
      ⟨(StoreMethodReference stAsmEmitErr 5 mdMyApp advMix.on_enter).hr,
       (StoreMethodReference stAsmEmitErr 5 mdMyApp advMix.on_enter).md,
       (StoreMethodReference stAsmEmitErr 5 mdMyApp advMix.on_enter).ops⟩ ∧
    ((StoreMethodAdvice stNoAsm 5 mdMyApp advMix).hr =
      (StoreMethodReference stNoAsm 5
        (StoreMethodReference stNoAsm 5 mdMyApp advMix.on_enter).md
        advMix.on_exit).hr ∧
     (StoreMethodAdvice stNoAsm 5 mdMyApp advMix).md.member_ref_cache =
      (StoreMethodReference stNoAsm 5 mdMyApp
        advMix.on_enter).md.member_ref_cache ∧
     ∃ tok, (StoreMethodAdvice stNoAsm 5 mdMyApp
        advMix).md.TryGetWrapperMemberRef
        advMix.on_enter.get_method_cache_key = some tok) :=
  ⟨(claim_c6_advice_short_circuit stAsmEmitErr 5 mdMyApp advMix).1 (by decide),
   (claim_c6_advice_short_circuit stNoAsm 5 mdMyApp advMix).2
     (by decide) (by decide)⟩

/-- Counterexample to C7 as stated: when no foundational assembly is
found, the pre-population step is not skipped — the constructor still
issues DefineTypeRefByName calls scoped to the nil assembly token, and
with a store that accepts them it populates type_refs. -/
theorem claim_c7_counterexample :
    (MetadataBuilderInit stNoAsm mdMyApp).2.1 = mdAssemblyRefNil ∧
    StoreOp.defineTypeRefByName mdAssemblyRefNil "System.Object" ∈
      (MetadataBuilderInit stNoAsm mdMyApp).2.2 ∧
    alookup (MetadataBuilderInit stNoAsm mdMyApp).1.type_refs
      "System.Object" = some 0x01000007 := by
  decide

/-- Claim C7 (amended): construction has no failure channel; the two
foundational defines are always attempted against the resolved
systemasm token (even the nil one), each is issued regardless of the
other's outcome, a name is stored in type_refs exactly when its own
define did not fail, and nothing else in the ModuleMetadata changes. -/
theorem claim_c7_foundational_init (st : Store) (md : ModuleMetadata) :
    (MetadataBuilderInit st md).2.2 =
      (findFirstAssemblyRef st possible_assembly_names).2 ++
      [StoreOp.defineTypeRefByName
         (findFirstAssemblyRef st possible_assembly_names).1 "System.Object",
       StoreOp.defineTypeRefByName
         (findFirstAssemblyRef st possible_assembly_names).1
         "System.Exception"] ∧
    alookup (MetadataBuilderInit st md).1.type_refs "System.Object" =
      (if FAILED (st.defineTypeRefByName
          (findFirstAssemblyRef st possible_assembly_names).1
          "System.Object").1 = true
       then alookup md.type_refs "System.Object"
       else some (st.defineTypeRefByName
          (findFirstAssemblyRef st possible_assembly_names).1
          "System.Object").2) ∧
    alookup (MetadataBuilderInit st md).1.type_refs "System.Exception" =
      (if FAILED (st.defineTypeRefByName
          (findFirstAssemblyRef st possible_assembly_names).1
          "System.Exception").1 = true
       then alookup md.type_refs "System.Exception"
       else some (st.defineTypeRefByName
          (findFirstAssemblyRef st possible_assembly_names).1
          "System.Exception").2) ∧
    (MetadataBuilderInit st md).1.assemblyName = md.assemblyName ∧
    (MetadataBuilderInit st md).1.type_ref_cache = md.type_ref_cache ∧
    (MetadataBuilderInit st md).1.member_ref_cache = md.member_ref_cache := by
  cases hF1 : FAILED (st.defineTypeRefByName
      (findFirstAssemblyRef st possible_assembly_names).1 "System.Object").1 <;>
  cases hF2 : FAILED (st.defineTypeRefByName
      (findFirstAssemblyRef st possible_assembly_names).1
      "System.Exception").1 <;>
  simp [MetadataBuilderInit, prePopulateTypeRefs, foundational_type_names,
    alookup, hF1, hF2]

/-- Claim C8: the emitted ASSEMBLYMETADATA record obeys the neutral
locale sentinel (absent locale, zero length) and otherwise carries the
locale and its length; the all-zero public key sentinel forces key
length zero while the key buffer is still passed, any other key uses
the fixed length 8. -/
theorem claim_c8_sentinels (st : Store) (a : AssemblyReference) :
    (a.locale = "neutral" →
      (buildAssemblyMetadata a).szLocale = none ∧
      (buildAssemblyMetadata a).cbLocale = 0) ∧
    (¬ a.locale = "neutral" →
      (buildAssemblyMetadata a).szLocale = some a.locale ∧
      (buildAssemblyMetadata a).cbLocale = a.locale.length) ∧
    (a.public_key = PublicKey.zero →
      (EmitAssemblyRef st a).ops =
        [StoreOp.defineAssemblyRef a.name a.public_key 0
          (buildAssemblyMetadata a)]) ∧
    (¬ a.public_key = PublicKey.zero →
      (EmitAssemblyRef st a).ops =
        [StoreOp.defineAssemblyRef a.name a.public_key 8
          (buildAssemblyMetadata a)]) := by
  refine ⟨fun h => ⟨?_, ?_⟩, fun h => ⟨?_, ?_⟩, fun h => ?_, fun h => ?_⟩
  · simp [buildAssemblyMetadata, h]
  · simp [buildAssemblyMetadata, h]
  · simp [buildAssemblyMetadata, h]
  · simp [buildAssemblyMetadata, h]
  · rw [ear_ops]
    simp [h]
  · rw [ear_ops]
    simp [h]

/-- Witness for C8 on a neutral, unsigned descriptor and on a
locale-carrying, signed one. -/
theorem claim_c8_witness :
    ((buildAssemblyMetadata arMyApp).szLocale = none ∧
     (buildAssemblyMetadata arMyApp).cbLocale = 0) ∧
    ((buildAssemblyMetadata arOther).szLocale = some arOther.locale ∧
     (buildAssemblyMetadata arOther).cbLocale = arOther.locale.length) ∧
    (EmitAssemblyRef stOk arMyApp).ops =
      [StoreOp.defineAssemblyRef arMyApp.name arMyApp.public_key 0
        (buildAssemblyMetadata arMyApp)] ∧
    (EmitAssemblyRef stOk arOther).ops =
      [StoreOp.defineAssemblyRef arOther.name arOther.public_key 8
        (buildAssemblyMetadata arOther)] :=
  ⟨(claim_c8_sentinels stOk arMyApp).1 (by decide),
   (claim_c8_sentinels stOk arOther).2.1 (by decide),
   (claim_c8_sentinels stOk arMyApp).2.2.1 (by decide),
   (claim_c8_sentinels stOk arOther).2.2.2 (by decide)⟩

/-- Claim C9: EmitAssemblyRef performs exactly one unconditional define
call to the store and nothing else (in particular no search and, by its
very signature, no cache access), returns S_OK when the store accepts,
and surfaces the store failure unchanged otherwise. -/
theorem claim_c9_unconditional_define (st : Store) (a : AssemblyReference) :
    (EmitAssemblyRef st a).ops =
      [StoreOp.defineAssemblyRef a.name a.public_key
        (if a.public_key = PublicKey.zero then 0 else 8)
        (buildAssemblyMetadata a)] ∧
    (FAILED (st.defineAssemblyRef a.name a.public_key
        (if a.public_key = PublicKey.zero then 0 else 8)
        (buildAssemblyMetadata a)) = false →
      (EmitAssemblyRef st a).hr = S_OK) ∧
    (FAILED (st.defineAssemblyRef a.name a.public_key
        (if a.public_key = PublicKey.zero then 0 else 8)
        (buildAssemblyMetadata a)) = true →
      (EmitAssemblyRef st a).hr =
        st.defineAssemblyRef a.name a.public_key
          (if a.public_key = PublicKey.zero then 0 else 8)
          (buildAssemblyMetadata a)) := by
  refine ⟨ear_ops st a, fun h => ?_, fun h => ?_⟩ <;>
  rcases ear_cases st a with ⟨hF, heq⟩ | ⟨hF, heq⟩ <;>
  rw [heq] <;>
  first
    | rfl
    | exact Bool.noConfusion (h ▸ hF)

/-- Witness for C9: the accepting store yields S_OK, the failing store
surfaces its own failure value. -/
theorem claim_c9_witness :
    (EmitAssemblyRef stOk arOther).hr = S_OK ∧
    (EmitAssemblyRef stAsmEmitErr arOther).hr =
      stAsmEmitErr.defineAssemblyRef arOther.name arOther.public_key
        (if arOther.public_key = PublicKey.zero then 0 else 8)
        (buildAssemblyMetadata arOther) :=
  ⟨(claim_c9_unconditional_define stOk arOther).2.1 (by decide),
   (claim_c9_unconditional_define stAsmEmitErr arOther).2.2 (by decide)⟩
